import Mathlib

/-!
Verification of `optimum/exporters/neuron/base.py` (class `NeuronConfig`).

The Python class is embedded shallowly:

* `MANDATORY_AXES` entries are either a bare axis name, a `(task, name)` pair,
  or a `(tasks-tuple, name)` pair; `MandatoryAxis` mirrors these three shapes.
* The mutable object state (`_normalized_config`, `_task`, `mandatory_axes`,
  `_axes`, ordinary instance fields) becomes the structure `NeuronConfig`;
  Python attribute mutation becomes explicit state passing.  Python dicts keep
  insertion order and update keys in place, which `setKey` on association
  lists reproduces.
* Axis dimensions are `Option Int` (`none` = Python `None`).
* Dummy tensors are abstracted as `Tensor := String`: the claims only track
  which generator produced which input, never tensor contents.
* Exceptions become `Except String`; functions that mutate `self` and may
  raise return the post-state paired with the `Except` result, which models
  Python semantics where mutations before a `raise` persist.
* Axis names are assumed distinct from the bookkeeping attribute names
  (`_task`, `mandatory_axes`, `_axes`, `dynamic_batch_size`, ...), as is true
  for the nine axis keywords of `__init__`; those bookkeeping attributes are
  therefore plain structure fields.
-/

/-- One entry of the static `MANDATORY_AXES` tuple: a bare axis name, a
`(task, name)` pair, or a `(tasks, name)` pair with a tuple of tasks. -/
inductive MandatoryAxis where
  | unscoped (name : String)
  | scopedSingle (task : String) (name : String)
  | scopedMulti (tasks : List String) (name : String)
deriving DecidableEq, Repr

/-- The axis name carried by a declaration (second tuple component, or the
bare name). -/
def MandatoryAxis.name : MandatoryAxis → String
  | .unscoped n => n
  | .scopedSingle _ n => n
  | .scopedMulti _ n => n

/-- The task-set a declaration is scoped to, `none` when unscoped.  A single
scoping task denotes the singleton task-set, as in the Python normalization
`tasks = (tasks,)`. -/
def MandatoryAxis.taskSet : MandatoryAxis → Option (List String)
  | .unscoped _ => none
  | .scopedSingle t _ => some [t]
  | .scopedMulti ts _ => some ts

/-- Spec-side predicate: the declaration is mandatory for `task` when it is
unscoped or its task-set contains `task`. -/
def MandatoryAxis.isMandatoryFor (a : MandatoryAxis) (task : String) : Bool :=
  match a.taskSet with
  | none => true
  | some ts => decide (task ∈ ts)

/-- Embedding of `NeuronConfig.get_mandatory_axes_for_task`: walk `MANDATORY_AXES`, skip
scoped entries whose task-set misses `task`, collect names in order. -/
def get_mandatory_axes_for_task (mandatoryAxes : List MandatoryAxis) (task : String) :
    List String :=
  match mandatoryAxes with
  | [] => []
  | axis :: rest =>
    let tail := get_mandatory_axes_for_task rest task
    match axis with
    | .unscoped name => name :: tail
    | .scopedSingle t name => if task ∈ [t] then name :: tail else tail
    | .scopedMulti ts name => if task ∈ ts then name :: tail else tail

/-- First value bound to `name` in an association list (Python dict read). -/
def lookupKey {α : Type} : List (String × α) → String → Option α
  | [], _ => none
  | p :: rest, name => if p.1 = name then some p.2 else lookupKey rest name

/-- Python dict write `d[k] = v`: update the existing entry in place, else
append at the end, preserving insertion order. -/
def setKey {α : Type} : List (String × α) → String → α → List (String × α)
  | [], name, value => [(name, value)]
  | p :: rest, name, value =>
    if p.1 = name then (name, value) :: rest else p :: setKey rest name value

/-- The normalized model configuration: a read-only attribute surface mapping
attribute names to integer hyperparameter values. -/
structure NormalizedConfig where
  attrs : List (String × Int)

/-- Embedding of `NormalizedConfig.has_attribute`. -/
def NormalizedConfig.has_attribute (c : NormalizedConfig) (name : String) : Bool :=
  (lookupKey c.attrs name).isSome

/-- Embedding of `getattr(self._normalized_config, name)`; `none` when the attribute does
not exist (`has_attribute` is checked first in the code). -/
def NormalizedConfig.getattr (c : NormalizedConfig) (name : String) : Option Int :=
  lookupKey c.attrs name

/-- Dummy tensors are abstract tokens; only identity matters here. -/
abbrev Tensor := String

/-- A dummy-input generator plugin: `supports_input` and `generate` (the
`framework="pt"` argument is constant in this module and omitted). -/
structure DummyInputGenerator where
  supports_input : String → Bool
  generate : String → Tensor

/-- A generator class from `DUMMY_INPUT_GENERATOR_CLASSES`: instantiated with
the task, the normalized config and the resolved axis values. -/
abbrev GeneratorCls :=
  String → NormalizedConfig → List (String × Option Int) → DummyInputGenerator

/-- The state of a `NeuronConfig` instance together with the static data of
its concrete subclass (`MANDATORY_AXES`, `DUMMY_INPUT_GENERATOR_CLASSES`, the
abstract `inputs` property). -/
structure NeuronConfig where
  MANDATORY_AXES : List MandatoryAxis
  DUMMY_INPUT_GENERATOR_CLASSES : List GeneratorCls
  inputs : List String
  normalized_config : NormalizedConfig
  task : String
  mandatory_axes : List String
  axes : List (String × Option Int)
  fields : List (String × Option Int)
  dynamic_batch_size : Bool

/-- Embedding of `NeuronConfig.__setattr__`: a name registered in `mandatory_axes` is
stored in `_axes`, with a `None` value replaced by the normalized config's
attribute when it exists; any other name is an ordinary field write. -/
def NeuronConfig.setattr (s : NeuronConfig) (name : String) (value : Option Int) :
    NeuronConfig :=
  if name ∈ s.mandatory_axes then
    let value2 :=
      if value = none then
        if s.normalized_config.has_attribute name then s.normalized_config.getattr name
        else value
      else value
    { s with axes := setKey s.axes name value2 }
  else
    { s with fields := setKey s.fields name value }

/-- The `task` property setter: store the task and recompute
`mandatory_axes` from the class declaration list. -/
def NeuronConfig.set_task (s : NeuronConfig) (value : String) : NeuronConfig :=
  { s with
    task := value
    mandatory_axes := get_mandatory_axes_for_task s.MANDATORY_AXES value }

/-- Embedding of `NeuronConfig.__init__`: set task (which registers the mandatory axes for
it), start with an empty axis dict, overwrite `batch_size` to 1 when dynamic
batch size is requested and the Neuron runtime is available, then assign the
nine axis keywords through `__setattr__` in declaration order. -/
def NeuronConfig.init (MANDATORY_AXES : List MandatoryAxis)
    (DUMMY_INPUT_GENERATOR_CLASSES : List GeneratorCls) (inputs : List String)
    (config : NormalizedConfig) (task : String)
    (batch_size : Option Int) (dynamic_batch_size : Bool)
    (sequence_length num_choices width height num_channels feature_size
      nb_max_frames audio_sequence_length : Option Int)
    (neuron_available : Bool) : NeuronConfig :=
  let s : NeuronConfig :=
    { MANDATORY_AXES := MANDATORY_AXES
      DUMMY_INPUT_GENERATOR_CLASSES := DUMMY_INPUT_GENERATOR_CLASSES
      inputs := inputs
      normalized_config := config
      task := task
      mandatory_axes := get_mandatory_axes_for_task MANDATORY_AXES task
      axes := []
      fields := []
      dynamic_batch_size := dynamic_batch_size }
  let batch_size := if dynamic_batch_size && neuron_available then some 1 else batch_size
  let axes_values : List (String × Option Int) :=
    [("batch_size", batch_size), ("sequence_length", sequence_length),
     ("num_choices", num_choices), ("width", width), ("height", height),
     ("num_channels", num_channels), ("feature_size", feature_size),
     ("nb_max_frames", nb_max_frames), ("audio_sequence_length", audio_sequence_length)]
  axes_values.foldl (fun s nv => s.setattr nv.1 nv.2) s

/-- The `MissingMandatoryAxisDimension` message. -/
def missingAxisMessage (name : String) : String :=
  "The value for the " ++ name ++
    " axis is missing, it is needed to perform the export to Neuron compiled model."

/-- The `RuntimeError` message for an input no generator can produce. -/
def unresolvableInputMessage (name : String) : String :=
  "Could not generate dummy inputs for \"" ++ name ++
    "\". Try adding a proper dummy input generator to the model Neuron config."

/-- Embedding of `NeuronConfig._validate_mandatory_axes`: fail on the first axis whose
value is `None`, in dict insertion order. -/
def _validate_mandatory_axes : List (String × Option Int) → Except String Unit
  | [] => .ok ()
  | (name, axis_dim) :: rest =>
    match axis_dim with
    | none => .error (missingAxisMessage name)
    | some _ => _validate_mandatory_axes rest

/-- The override loop of `_create_dummy_input_generator_classes`:
`self._axes[name] = kwargs.pop(name, axis_dim)` for every registered axis.
A keyword may carry `None` (an explicit `name=None` argument). -/
def applyOverrides (axes : List (String × Option Int))
    (kwargs : List (String × Option Int)) : List (String × Option Int) :=
  axes.map fun p =>
    (p.1, match lookupKey kwargs p.1 with
          | some v => v
          | none => p.2)

/-- Embedding of `[cls_(self.task, self._normalized_config, **self._axes) for cls_ in
self.DUMMY_INPUT_GENERATOR_CLASSES]`: instantiate the generator classes in
registration order. -/
def NeuronConfig.instantiated_generators (s : NeuronConfig) : List DummyInputGenerator :=
  s.DUMMY_INPUT_GENERATOR_CLASSES.map fun c => c s.task s.normalized_config s.axes

/-- Embedding of `NeuronConfig._create_dummy_input_generator_classes`: write the keyword
overrides into `_axes`, validate, then instantiate every generator class.
The post-state is returned even when validation raises, since the dict
mutation precedes the exception. -/
def NeuronConfig._create_dummy_input_generator_classes (s : NeuronConfig)
    (kwargs : List (String × Option Int)) :
    NeuronConfig × Except String (List DummyInputGenerator) :=
  let s2 := { s with axes := applyOverrides s.axes kwargs }
  (s2,
    match _validate_mandatory_axes s2.axes with
    | .error e => .error e
    | .ok _ => .ok s2.instantiated_generators)

/-- The inner generator scan of `generate_dummy_inputs`: first generator (in
registration order) whose `supports_input` accepts the name. -/
def findGen (gens : List DummyInputGenerator) (name : String) :
    Option DummyInputGenerator :=
  match gens with
  | [] => none
  | g :: rest => if g.supports_input name then some g else findGen rest name

/-- The outer loop of `generate_dummy_inputs`: for each declared input name in
order, take the first supporting generator's tensor into the dict, or raise
the unresolvable-input error. -/
def generateLoop (gens : List DummyInputGenerator) (inputs : List String)
    (dummy_inputs : List (String × Tensor)) : Except String (List (String × Tensor)) :=
  match inputs with
  | [] => .ok dummy_inputs
  | name :: rest =>
    match findGen gens name with
    | some g => generateLoop gens rest (setKey dummy_inputs name (g.generate name))
    | none => .error (unresolvableInputMessage name)

/-- The result of `generate_dummy_inputs`: a name-to-tensor dict, or the
tuple of its values when `return_tuple` is set. -/
inductive DummyInputsResult where
  | dict (pairs : List (String × Tensor))
  | tup (values : List Tensor)
deriving DecidableEq, Repr

/-- Embedding of `NeuronConfig.generate_dummy_inputs`. -/
def NeuronConfig.generate_dummy_inputs (s : NeuronConfig) (return_tuple : Bool)
    (kwargs : List (String × Option Int)) :
    NeuronConfig × Except String DummyInputsResult :=
  let sr := s._create_dummy_input_generator_classes kwargs
  match sr.2 with
  | .error e => (sr.1, .error e)
  | .ok dummy_inputs_generators =>
    match generateLoop dummy_inputs_generators sr.1.inputs [] with
    | .error e => (sr.1, .error e)
    | .ok dummy_inputs =>
      (sr.1,
        .ok (if return_tuple then DummyInputsResult.tup (dummy_inputs.map Prod.snd)
             else DummyInputsResult.dict dummy_inputs))

/-- The static `_TASK_TO_COMMON_OUTPUTS` dictionary. -/
def _TASK_TO_COMMON_OUTPUTS : List (String × List String) :=
  [("feature-extraction", ["last_hidden_state", "pooler_output"]),
   ("fill-mask", ["logits"]),
   ("image-classification", ["logits"]),
   ("image-segmentation", ["logits", "pred_boxes", "pred_masks"]),
   ("masked-im", ["logits"]),
   ("multiple-choice", ["logits"]),
   ("object-detection", ["logits", "pred_boxes"]),
   ("question-answering", ["start_logits", "end_logits"]),
   ("semantic-segmentation", ["logits"]),
   ("text-classification", ["logits"]),
   ("token-classification", ["logits"]),
   ("audio-classification", ["logits"]),
   ("audio-frame-classification", ["logits"]),
   ("automatic-speech-recognition", ["logits"]),
   ("audio-xvector", ["logits"])]

/-- The `outputs` property: `self._TASK_TO_COMMON_OUTPUTS[self.task]`; a
missing task is a `KeyError`, i.e. `none`. -/
def NeuronConfig.outputs (s : NeuronConfig) : Option (List String) :=
  lookupKey _TASK_TO_COMMON_OUTPUTS s.task

/-- The wrapper object built by `check_model_inputs_order`; the underlying
model is a callable over keyword tensor arguments. -/
structure ModelWrapper where
  model : List (String × Tensor) → Tensor
  input_names : List String

/-- Embedding of `ModelWrapper.forward`: reject a positional-argument count different from
the declared input count, else zip names onto values and call the model. -/
def ModelWrapper.forward (w : ModelWrapper) (input : List Tensor) :
    Except String Tensor :=
  if input.length ≠ w.input_names.length then
    .error ("The model needs " ++ toString w.input_names.length ++ " inputs: " ++
      toString w.input_names ++ ". But only " ++ toString input.length ++
      " inputs are passed.")
  else
    .ok (w.model (w.input_names.zip input))

/-- Embedding of `NeuronConfig.check_model_inputs_order`: wrap the model with the dummy
inputs' key list as the positional order. -/
def check_model_inputs_order (model : List (String × Tensor) → Tensor)
    (dummy_inputs : List (String × Tensor)) : ModelWrapper :=
  { model := model, input_names := dummy_inputs.map Prod.fst }

/-! ## Association-list lemmas -/

theorem lookupKey_setKey_self {α : Type} (l : List (String × α)) (k : String) (v : α) :
    lookupKey (setKey l k v) k = some v := by
  induction l with
  | nil => simp [setKey, lookupKey]
  | cons p rest ih =>
    by_cases h : p.1 = k
    · simp [setKey, h, lookupKey]
    · simp [setKey, h, lookupKey, ih]

theorem lookupKey_setKey_other {α : Type} (l : List (String × α)) (k k2 : String)
    (v : α) (h : k ≠ k2) : lookupKey (setKey l k v) k2 = lookupKey l k2 := by
  induction l with
  | nil => simp [setKey, lookupKey, h]
  | cons p rest ih =>
    by_cases hp : p.1 = k
    · simp [setKey, hp, lookupKey, h]
    · simp [setKey, hp, lookupKey, ih]

theorem mem_keys_setKey {α : Type} (l : List (String × α)) (k : String) (v : α)
    (n : String) (h : n ∈ (setKey l k v).map Prod.fst) :
    n = k ∨ n ∈ l.map Prod.fst := by
  induction l with
  | nil => simpa [setKey] using h
  | cons p rest ih =>
    by_cases hp : p.1 = k
    · simp only [setKey, hp, if_pos rfl] at h
      rcases List.mem_map.1 h with ⟨q, hq, rfl⟩
      rcases List.mem_cons.1 hq with rfl | hq2
      · exact Or.inl rfl
      · exact Or.inr (List.mem_map.2 ⟨q, List.mem_cons_of_mem _ hq2, rfl⟩)
    · simp only [setKey, if_neg hp, List.map_cons, List.mem_cons] at h
      rcases h with rfl | h2
      · exact Or.inr (by simp)
      · rcases ih h2 with h3 | h3
        · exact Or.inl h3
        · exact Or.inr (by simp [h3])

/-! ## C1 -/

/-- C1: for every task and every static MANDATORY_AXES declaration list,
`get_mandatory_axes_for_task` returns exactly the names of the declarations
that are unscoped or scoped to a task-set containing the task, in declaration
order and without deduplication. -/
theorem C1_get_mandatory_axes_is_filter (D : List MandatoryAxis) (task : String) :
    get_mandatory_axes_for_task D task =
      (D.filter (fun a => a.isMandatoryFor task)).map MandatoryAxis.name := by
  induction D with
  | nil => rfl
  | cons a rest ih =>
    cases a with
    | unscoped n =>
      simp [get_mandatory_axes_for_task, MandatoryAxis.isMandatoryFor,
        MandatoryAxis.taskSet, MandatoryAxis.name, ih]
    | scopedSingle t n =>
      by_cases h : task = t
      · subst h
        simp [get_mandatory_axes_for_task, MandatoryAxis.isMandatoryFor,
          MandatoryAxis.taskSet, MandatoryAxis.name, List.filter_cons, ih]
      · simp [get_mandatory_axes_for_task, MandatoryAxis.isMandatoryFor,
          MandatoryAxis.taskSet, MandatoryAxis.name, List.filter_cons, ih, h]
    | scopedMulti ts n =>
      by_cases h : task ∈ ts <;>
        simp [get_mandatory_axes_for_task, MandatoryAxis.isMandatoryFor,
          MandatoryAxis.taskSet, MandatoryAxis.name, List.filter_cons, ih, h]

theorem lookupKey_eq_none_of_not_mem {α : Type} (l : List (String × α)) (k : String)
    (h : k ∉ l.map Prod.fst) : lookupKey l k = none := by
  induction l with
  | nil => rfl
  | cons p rest ih =>
    simp only [List.map_cons, List.mem_cons, not_or] at h
    have hne : p.1 ≠ k := fun hh => h.1 hh.symm
    simp [lookupKey, hne, ih h.2]

/-! ## Sample instances used by the concrete witnesses -/

/-- A normalized model configuration declaring only `sequence_length`. -/
def sampleNC : NormalizedConfig := { attrs := [("sequence_length", 128)] }

/-- A small concrete configuration state: two unscoped mandatory axes, no
generators, no inputs. -/
def sampleConfig : NeuronConfig :=
  { MANDATORY_AXES := [MandatoryAxis.unscoped "batch_size",
      MandatoryAxis.unscoped "sequence_length"]
    DUMMY_INPUT_GENERATOR_CLASSES := []
    inputs := []
    normalized_config := sampleNC
    task := "feature-extraction"
    mandatory_axes := ["batch_size", "sequence_length"]
    axes := []
    fields := []
    dynamic_batch_size := false }

/-! ## C2 -/

/-- C2: assigning a value to a name currently registered as mandatory stores
it in the axis mapping and leaves ordinary fields untouched; a `none` value is
replaced by the normalized model configuration's attribute of that name when
it exists, otherwise `none` is retained. -/
theorem C2_setattr_mandatory_axis (s : NeuronConfig) (name : String)
    (value : Option Int) (h : name ∈ s.mandatory_axes) :
    (s.setattr name value).fields = s.fields ∧
    lookupKey (s.setattr name value).axes name =
      some (match value with
            | some v => some v
            | none => s.normalized_config.getattr name) := by
  constructor
  · simp [NeuronConfig.setattr, h]
  · simp only [NeuronConfig.setattr, if_pos h]
    cases value with
    | some v => simp [lookupKey_setKey_self]
    | none =>
      by_cases ha : s.normalized_config.has_attribute name
      · simp [ha, lookupKey_setKey_self]
      · have hnone : s.normalized_config.getattr name = none := by
          rw [NormalizedConfig.getattr]
          rw [NormalizedConfig.has_attribute] at ha
          exact Option.not_isSome_iff_eq_none.mp ha
        simp [ha, lookupKey_setKey_self, hnone]

/-- Witness for C2: on `sampleConfig`, assigning `none` to the mandatory axis
`sequence_length` (declared by the model as 128) stores the model's value. -/
theorem C2_setattr_mandatory_axis_witness :
    (sampleConfig.setattr "sequence_length" none).fields = sampleConfig.fields ∧
    lookupKey (sampleConfig.setattr "sequence_length" none).axes "sequence_length" =
      some (sampleConfig.normalized_config.getattr "sequence_length") :=
  C2_setattr_mandatory_axis sampleConfig "sequence_length" none (by decide)

/-! ## C8 -/

/-- C8: `outputs` for task "question-answering" is exactly
`["start_logits", "end_logits"]`; for a task absent from
`_TASK_TO_COMMON_OUTPUTS`, the dictionary lookup fails. -/
theorem C8_outputs_table (s : NeuronConfig) :
    (s.task = "question-answering" →
      s.outputs = some ["start_logits", "end_logits"]) ∧
    (s.task ∉ _TASK_TO_COMMON_OUTPUTS.map Prod.fst → s.outputs = none) := by
  constructor
  · intro h
    have h2 : s.outputs = lookupKey _TASK_TO_COMMON_OUTPUTS "question-answering" := by
      rw [NeuronConfig.outputs, h]
    rw [h2]
    rfl
  · intro h
    exact lookupKey_eq_none_of_not_mem _ _ h

/-- A state whose task is "question-answering". -/
def qaConfig : NeuronConfig := { sampleConfig with task := "question-answering" }

/-- A state whose task is not registered in the outputs table. -/
def unknownTaskConfig : NeuronConfig :=
  { sampleConfig with task := "text2text-generation" }

/-- Witness for C8 at the two concrete states. -/
theorem C8_outputs_table_witness :
    qaConfig.outputs = some ["start_logits", "end_logits"] ∧
    unknownTaskConfig.outputs = none :=
  ⟨(C8_outputs_table qaConfig).1 rfl,
   (C8_outputs_table unknownTaskConfig).2 (by decide)⟩

/-! ## C9 -/

/-- C9: constructing with `dynamic_batch_size = true` while the Neuron
runtime is reported available overwrites the `batch_size` argument to 1
before axis values are stored, regardless of the value the caller supplied:
the resulting state is identical to one constructed with `batch_size = 1`. -/
theorem C9_dynamic_batch_size_overwrite
    (M : List MandatoryAxis) (g : List GeneratorCls) (ins : List String)
    (c : NormalizedConfig) (task : String) (batch_size : Option Int)
    (sl nc w hh ch fs nf asl : Option Int) :
    NeuronConfig.init M g ins c task batch_size true sl nc w hh ch fs nf asl true =
      NeuronConfig.init M g ins c task (some 1) true sl nc w hh ch fs nf asl true := rfl

/-! ## C5 -/

/-- Spec-side: the name of the first axis entry holding `none`, in insertion
order. -/
def firstNoneAxis : List (String × Option Int) → Option String
  | [] => none
  | (name, none) :: _ => some name
  | (_, some _) :: rest => firstNoneAxis rest

theorem validate_eq_firstNoneAxis (axes : List (String × Option Int)) :
    _validate_mandatory_axes axes =
      match firstNoneAxis axes with
      | some name => .error (missingAxisMessage name)
      | none => .ok () := by
  induction axes with
  | nil => rfl
  | cons p rest ih =>
    rcases p with ⟨name, v⟩
    cases v with
    | none => rfl
    | some d => simpa [_validate_mandatory_axes, firstNoneAxis] using ih

/-- C5: if after writing the keyword overrides into the axis mapping some
registered axis is still `none`, dummy-input generation fails with the
missing-mandatory-axis error naming the first such axis in insertion order;
if no axis is `none`, validation passes. -/
theorem C5_missing_axis_validation (s : NeuronConfig) (rt : Bool)
    (kwargs : List (String × Option Int)) :
    (∀ name, firstNoneAxis (applyOverrides s.axes kwargs) = some name →
      (s.generate_dummy_inputs rt kwargs).2 = .error (missingAxisMessage name)) ∧
    (firstNoneAxis (applyOverrides s.axes kwargs) = none →
      _validate_mandatory_axes (applyOverrides s.axes kwargs) = .ok ()) := by
  constructor
  · intro name h
    have hv : _validate_mandatory_axes (applyOverrides s.axes kwargs) =
        .error (missingAxisMessage name) := by
      rw [validate_eq_firstNoneAxis, h]
    simp [NeuronConfig.generate_dummy_inputs,
      NeuronConfig._create_dummy_input_generator_classes, hv]
  · intro h
    rw [validate_eq_firstNoneAxis, h]

/-- A state whose axis mapping still holds a `none` value for
`sequence_length` after an override of `batch_size`. -/
def missingAxisConfig : NeuronConfig :=
  { sampleConfig with axes := [("batch_size", some 4), ("sequence_length", none)] }

/-- Witness for C5: generation on `missingAxisConfig` fails naming
`sequence_length`, the first (and only) still-unspecified axis. -/
theorem C5_missing_axis_validation_witness :
    (missingAxisConfig.generate_dummy_inputs false []).2 =
      .error (missingAxisMessage "sequence_length") :=
  (C5_missing_axis_validation missingAxisConfig false []).1 "sequence_length" (by decide)

/-! ## Generator scan lemmas (C3, C4) -/

theorem findGen_eq_find (gens : List DummyInputGenerator) (name : String) :
    findGen gens name = gens.find? (fun g => g.supports_input name) := by
  induction gens with
  | nil => rfl
  | cons g rest ih =>
    cases hsup : g.supports_input name with
    | true => simp [findGen, hsup, List.find?_cons, ih]
    | false => simp [findGen, hsup, List.find?_cons, ih]

theorem generateLoop_lookup (gens : List DummyInputGenerator) (name : String)
    (g : DummyInputGenerator) (hfind : findGen gens name = some g)
    (inputs : List String) :
    ∀ (acc d : List (String × Tensor)),
      generateLoop gens inputs acc = .ok d →
      (name ∈ inputs ∨ lookupKey acc name = some (g.generate name)) →
      lookupKey d name = some (g.generate name) := by
  induction inputs with
  | nil =>
    intro acc d hok hmem
    simp only [generateLoop, Except.ok.injEq] at hok
    subst hok
    rcases hmem with h | h
    · cases h
    · exact h
  | cons n rest ih =>
    intro acc d hok hmem
    cases hg2 : findGen gens n with
    | none =>
      simp only [generateLoop, hg2] at hok
      exact Except.noConfusion hok
    | some g2 =>
      simp only [generateLoop, hg2] at hok
      by_cases hn : name = n
      · subst hn
        have hgg : g2 = g := (Option.some.inj (hfind.symm.trans hg2)).symm
        refine ih _ _ hok (Or.inr ?_)
        rw [lookupKey_setKey_self, hgg]
      · rcases hmem with h | h
        · rcases List.mem_cons.1 h with h1 | h1
          · exact absurd h1 hn
          · exact ih _ _ hok (Or.inl h1)
        · refine ih _ _ hok (Or.inr ?_)
          rw [lookupKey_setKey_other acc n name (g2.generate n) (fun hh => hn hh.symm)]
          exact h

theorem generateLoop_unresolvable (gens : List DummyInputGenerator)
    (pre : List String) (name : String) (post : List String)
    (hname : findGen gens name = none) :
    ∀ acc : List (String × Tensor),
      (∀ n ∈ pre, (findGen gens n).isSome) →
      generateLoop gens (pre ++ name :: post) acc =
        .error (unresolvableInputMessage name) := by
  induction pre with
  | nil =>
    intro acc _
    simp [generateLoop, hname]
  | cons n rest ih =>
    intro acc hpre
    have hn := hpre n (by simp)
    cases hg : findGen gens n with
    | none => rw [hg] at hn; cases hn
    | some g =>
      simp only [List.cons_append, generateLoop, hg]
      exact ih _ (fun m hm => hpre m (by simp [hm]))

theorem generateLoop_error_of_unclaimed (gens : List DummyInputGenerator)
    (inputs : List String) (name : String)
    (hmem : name ∈ inputs) (hname : findGen gens name = none) :
    ∀ acc : List (String × Tensor),
      ∃ m, m ∈ inputs ∧ findGen gens m = none ∧
        generateLoop gens inputs acc = .error (unresolvableInputMessage m) := by
  induction inputs with
  | nil => cases hmem
  | cons n rest ih =>
    intro acc
    cases hg : findGen gens n with
    | none => exact ⟨n, by simp, hg, by simp [generateLoop, hg]⟩
    | some g =>
      have hmem2 : name ∈ rest := by
        rcases List.mem_cons.1 hmem with rfl | h
        · rw [hg] at hname; exact Option.noConfusion hname
        · exact h
      rcases ih hmem2 (setKey acc n (g.generate n)) with ⟨m, hm1, hm2, hm3⟩
      exact ⟨m, by simp [hm1], hm2, by simp [generateLoop, hg, hm3]⟩

theorem generate_dummy_inputs_eq_loop (s : NeuronConfig) (rt : Bool)
    (kwargs : List (String × Option Int))
    (hval : _validate_mandatory_axes (applyOverrides s.axes kwargs) = .ok ()) :
    (s.generate_dummy_inputs rt kwargs).2 =
      match generateLoop
          (s._create_dummy_input_generator_classes kwargs).1.instantiated_generators
          s.inputs [] with
      | .error e => .error e
      | .ok d => .ok (if rt then DummyInputsResult.tup (d.map Prod.snd)
                      else DummyInputsResult.dict d) := by
  simp only [NeuronConfig.generate_dummy_inputs,
    NeuronConfig._create_dummy_input_generator_classes, hval]
  split <;> rfl

theorem generate_ok_validate (s : NeuronConfig) (rt : Bool)
    (kwargs : List (String × Option Int)) (r : DummyInputsResult)
    (hok : (s.generate_dummy_inputs rt kwargs).2 = .ok r) :
    _validate_mandatory_axes (applyOverrides s.axes kwargs) = .ok () := by
  cases hv : _validate_mandatory_axes (applyOverrides s.axes kwargs) with
  | ok u => cases u; rfl
  | error e =>
    rw [NeuronConfig.generate_dummy_inputs,
      NeuronConfig._create_dummy_input_generator_classes] at hok
    simp only [hv] at hok
    exact Except.noConfusion hok

theorem generate_ok_dict_loop (s : NeuronConfig)
    (kwargs : List (String × Option Int)) (d : List (String × Tensor))
    (hok : (s.generate_dummy_inputs false kwargs).2 = .ok (DummyInputsResult.dict d)) :
    generateLoop (s._create_dummy_input_generator_classes kwargs).1.instantiated_generators
      s.inputs [] = .ok d := by
  have hval := generate_ok_validate s false kwargs _ hok
  rw [generate_dummy_inputs_eq_loop s false kwargs hval] at hok
  cases hl : generateLoop
      (s._create_dummy_input_generator_classes kwargs).1.instantiated_generators
      s.inputs [] with
  | error e => rw [hl] at hok; exact Except.noConfusion hok
  | ok d2 =>
    rw [hl] at hok
    simp only [if_neg Bool.false_ne_true, Except.ok.injEq,
      DummyInputsResult.dict.injEq] at hok
    rw [hok]

/-! ## C3 -/

/-- C3: when `generate_dummy_inputs` succeeds, every declared input's tensor
comes from the first registered generator, in registration order, whose
`supports_input` returns true for that name. -/
theorem C3_first_matching_generator_wins (s : NeuronConfig)
    (kwargs : List (String × Option Int)) (d : List (String × Tensor))
    (name : String) (g : DummyInputGenerator)
    (hok : (s.generate_dummy_inputs false kwargs).2 = .ok (DummyInputsResult.dict d))
    (hmem : name ∈ s.inputs)
    (hfind :
      ((s._create_dummy_input_generator_classes kwargs).1.instantiated_generators).find?
        (fun gg => gg.supports_input name) = some g) :
    lookupKey d name = some (g.generate name) := by
  have hloop := generate_ok_dict_loop s kwargs d hok
  have h2 : findGen
      (s._create_dummy_input_generator_classes kwargs).1.instantiated_generators name =
      some g := by
    rw [findGen_eq_find]; exact hfind
  exact generateLoop_lookup _ name g h2 s.inputs [] d hloop (Or.inl hmem)

/-- Generator class A: claims only the input "x"; its tensors carry tag A. -/
def genClsA : GeneratorCls := fun _ _ _ =>
  { supports_input := fun n => n == "x", generate := fun n => "A:" ++ n }

/-- Generator class B: claims the inputs "x" and "y"; tensors carry tag B. -/
def genClsB : GeneratorCls := fun _ _ _ =>
  { supports_input := fun n => n == "x" || n == "y", generate := fun n => "B:" ++ n }

/-- A configuration registering A before B and declaring inputs "x", "y",
with all mandatory axes resolved. -/
def abConfig : NeuronConfig :=
  { sampleConfig with
    DUMMY_INPUT_GENERATOR_CLASSES := [genClsA, genClsB]
    inputs := ["x", "y"]
    axes := [("batch_size", some 1), ("sequence_length", some 2)] }

/-- Witness for C3: with A (claiming x) registered before B (claiming x, y),
the generated dict maps "x" to A's tensor. -/
theorem C3_first_matching_generator_wins_witness :
    lookupKey [("x", "A:x"), ("y", "B:y")] "x" = some "A:x" :=
  C3_first_matching_generator_wins abConfig [] [("x", "A:x"), ("y", "B:y")] "x"
    (genClsA abConfig.task abConfig.normalized_config (applyOverrides abConfig.axes []))
    (by rfl) (by decide) (by rfl)

/-! ## C4 -/

/-- C4: a declared input name that no registered generator claims makes
`generate_dummy_inputs` fail with the unresolvable-input error naming that
input (the first such input reached in declaration order); more generally the
presence of any unclaimed declared input forces the unresolvable-input error,
naming an unclaimed declared input. -/
theorem C4_unresolvable_input (s : NeuronConfig) (rt : Bool)
    (kwargs : List (String × Option Int))
    (hval : _validate_mandatory_axes (applyOverrides s.axes kwargs) = .ok ()) :
    (∀ pre name post,
      s.inputs = pre ++ name :: post →
      (∀ n ∈ pre,
        (findGen (s._create_dummy_input_generator_classes kwargs).1.instantiated_generators
          n).isSome) →
      findGen (s._create_dummy_input_generator_classes kwargs).1.instantiated_generators
        name = none →
      (s.generate_dummy_inputs rt kwargs).2 = .error (unresolvableInputMessage name)) ∧
    (∀ name, name ∈ s.inputs →
      findGen (s._create_dummy_input_generator_classes kwargs).1.instantiated_generators
        name = none →
      ∃ m, m ∈ s.inputs ∧
        findGen (s._create_dummy_input_generator_classes kwargs).1.instantiated_generators
          m = none ∧
        (s.generate_dummy_inputs rt kwargs).2 = .error (unresolvableInputMessage m)) := by
  constructor
  · intro pre name post hinp hpre hname
    rw [generate_dummy_inputs_eq_loop s rt kwargs hval, hinp,
      generateLoop_unresolvable _ pre name post hname [] hpre]
  · intro name hmem hname
    rcases generateLoop_error_of_unclaimed _ s.inputs name hmem hname [] with
      ⟨m, hm1, hm2, hm3⟩
    refine ⟨m, hm1, hm2, ?_⟩
    rw [generate_dummy_inputs_eq_loop s rt kwargs hval, hm3]

/-- The A/B configuration with declared inputs "x" and "z", where no
generator claims "z". -/
def unresolvableConfig : NeuronConfig := { abConfig with inputs := ["x", "z"] }

/-- Witness for C4: requesting the unclaimed input "z" fails with the
unresolvable-input error naming "z". -/
theorem C4_unresolvable_input_witness :
    (unresolvableConfig.generate_dummy_inputs false []).2 =
      .error (unresolvableInputMessage "z") :=
  (C4_unresolvable_input unresolvableConfig false [] (by rfl)).1 ["x"] "z" []
    (by rfl) (by decide) (by rfl)

/-! ## C6 -/

/-- C6: the wrapper returned by `check_model_inputs_order`, called with
exactly as many positional values as declared input names, invokes the model
with keyword arguments pairing the i-th declared name with the i-th
positional value; called with any other count it fails with the
count-mismatch error. -/
theorem C6_wrapper_positional_order (model : List (String × Tensor) → Tensor)
    (dummy_inputs : List (String × Tensor)) (input : List Tensor) :
    (input.length = dummy_inputs.length →
      (check_model_inputs_order model dummy_inputs).forward input =
        .ok (model ((dummy_inputs.map Prod.fst).zip input))) ∧
    (input.length ≠ dummy_inputs.length →
      ∃ e, (check_model_inputs_order model dummy_inputs).forward input = .error e) := by
  constructor
  · intro h
    have hc : ¬ input.length ≠ (dummy_inputs.map Prod.fst).length := by
      simp [h]
    simp only [ModelWrapper.forward, check_model_inputs_order]
    rw [if_neg hc]
  · intro h
    have hc : input.length ≠ (dummy_inputs.map Prod.fst).length := by
      simpa using h
    simp only [ModelWrapper.forward, check_model_inputs_order, if_pos hc]
    exact ⟨_, rfl⟩

/-- A concrete keyword-argument model for the wrapper witness. -/
def wModel : List (String × Tensor) → Tensor :=
  fun kw => String.join (kw.map fun p => p.1 ++ "=" ++ p.2 ++ ";")

/-- Witness for C6: one declared input; one positional value dispatches it by
name, two positional values fail. -/
theorem C6_wrapper_positional_order_witness :
    (check_model_inputs_order wModel [("x", "tx")]).forward ["v"] =
      .ok (wModel [("x", "v")]) ∧
    ∃ e, (check_model_inputs_order wModel [("x", "tx")]).forward ["v", "w"] =
      .error e :=
  ⟨(C6_wrapper_positional_order wModel [("x", "tx")] ["v"]).1 rfl,
   (C6_wrapper_positional_order wModel [("x", "tx")] ["v", "w"]).2 (by decide)⟩

/-! ## C10 -/

theorem generate_state_axes (s : NeuronConfig) (rt : Bool)
    (kwargs : List (String × Option Int)) :
    ((s.generate_dummy_inputs rt kwargs).1).axes = applyOverrides s.axes kwargs := by
  cases hv : _validate_mandatory_axes (applyOverrides s.axes kwargs) with
  | error e =>
    simp [NeuronConfig.generate_dummy_inputs,
      NeuronConfig._create_dummy_input_generator_classes, hv]
  | ok u =>
    cases u
    simp only [NeuronConfig.generate_dummy_inputs,
      NeuronConfig._create_dummy_input_generator_classes, hv]
    split <;> rfl

/-- C10: `generate_dummy_inputs` is not atomic on the axis mapping: a call
that fails still leaves the keyword overrides persisted in the
configuration's stored axis values. -/
theorem C10_overrides_persist_on_failure (s : NeuronConfig) (rt : Bool)
    (kwargs : List (String × Option Int)) (e : String)
    (_herr : (s.generate_dummy_inputs rt kwargs).2 = .error e) :
    ((s.generate_dummy_inputs rt kwargs).1).axes = applyOverrides s.axes kwargs :=
  generate_state_axes s rt kwargs

/-- Witness for C10: overriding `batch_size` to 8 on a call that fails with
the unresolvable-input error still persists the override. -/
theorem C10_overrides_persist_on_failure_witness :
    ((unresolvableConfig.generate_dummy_inputs false [("batch_size", some 8)]).1).axes =
      applyOverrides unresolvableConfig.axes [("batch_size", some 8)] :=
  C10_overrides_persist_on_failure unresolvableConfig false [("batch_size", some 8)]
    (unresolvableInputMessage "z") (by rfl)

/-! ## C7 -/

/-- The axis-mapping invariant claimed by the spec: every name stored in the
dynamic axis mapping is currently registered as mandatory. -/
abbrev AxesInv (s : NeuronConfig) : Prop :=
  ∀ n ∈ s.axes.map Prod.fst, n ∈ s.mandatory_axes

theorem setattr_preserves_inv (s : NeuronConfig) (name : String)
    (value : Option Int) (h : AxesInv s) : AxesInv (s.setattr name value) := by
  intro n hn
  by_cases hm : name ∈ s.mandatory_axes
  · simp only [NeuronConfig.setattr, if_pos hm] at hn ⊢
    rcases mem_keys_setKey _ _ _ _ hn with rfl | h2
    · exact hm
    · exact h n h2
  · simp only [NeuronConfig.setattr, if_neg hm] at hn ⊢
    exact h n hn

theorem foldl_setattr_inv (l : List (String × Option Int)) (s : NeuronConfig)
    (h : AxesInv s) :
    AxesInv (l.foldl (fun s nv => s.setattr nv.1 nv.2) s) := by
  induction l generalizing s with
  | nil => exact h
  | cons p rest ih => exact ih _ (setattr_preserves_inv s p.1 p.2 h)

theorem init_axes_inv (M : List MandatoryAxis) (g : List GeneratorCls)
    (ins : List String) (c : NormalizedConfig) (task : String) (bs : Option Int)
    (dbs : Bool) (sl nc w hh chn fs nf asl : Option Int) (na : Bool) :
    AxesInv (NeuronConfig.init M g ins c task bs dbs sl nc w hh chn fs nf asl na) := by
  have h0 : AxesInv
      ({ MANDATORY_AXES := M
         DUMMY_INPUT_GENERATOR_CLASSES := g
         inputs := ins
         normalized_config := c
         task := task
         mandatory_axes := get_mandatory_axes_for_task M task
         axes := []
         fields := []
         dynamic_batch_size := dbs } : NeuronConfig) := by
    intro n hn
    simp at hn
  exact foldl_setattr_inv _ _ h0

/-- C7 (amended): construction establishes the invariant that only names
registered as mandatory are stored in the axis mapping; attribute assignment
preserves it, and assignment to a name not currently registered as mandatory
is ordinary field assignment; the claim's further assertion that the
invariant survives re-assignment of the task attribute is false (see the
counterexample): the task setter recomputes the mandatory set but never
removes stale entries from the axis mapping. -/
theorem C7_axes_invariant_amended :
    (∀ (M : List MandatoryAxis) (g : List GeneratorCls) (ins : List String)
       (c : NormalizedConfig) (task : String) (bs : Option Int) (dbs : Bool)
       (sl nc w hh chn fs nf asl : Option Int) (na : Bool),
       AxesInv (NeuronConfig.init M g ins c task bs dbs sl nc w hh chn fs nf asl na)) ∧
    (∀ (s : NeuronConfig) (name : String) (value : Option Int),
       AxesInv s → AxesInv (s.setattr name value)) ∧
    (∀ (s : NeuronConfig) (name : String) (value : Option Int),
       name ∉ s.mandatory_axes →
       (s.setattr name value).axes = s.axes ∧
       (s.setattr name value).fields = setKey s.fields name value ∧
       (s.setattr name value).mandatory_axes = s.mandatory_axes ∧
       (s.setattr name value).task = s.task) := by
  refine ⟨init_axes_inv, setattr_preserves_inv, ?_⟩
  intro s name value hm
  simp [NeuronConfig.setattr, if_neg hm]

/-- Witness for C7 (amended), at `sampleConfig` and the non-mandatory name
"width". -/
theorem C7_axes_invariant_amended_witness :
    AxesInv (sampleConfig.setattr "width" (some 3)) ∧
    (sampleConfig.setattr "width" (some 3)).axes = sampleConfig.axes :=
  ⟨C7_axes_invariant_amended.2.1 sampleConfig "width" (some 3) (by decide),
   (C7_axes_invariant_amended.2.2 sampleConfig "width" (some 3) (by decide)).1⟩

/-- A configuration built for task "t1" whose only mandatory axis,
`batch_size`, is scoped to "t1" and was given the value 4. -/
def c7Base : NeuronConfig :=
  NeuronConfig.init [MandatoryAxis.scopedSingle "t1" "batch_size"] [] []
    { attrs := [] } "t1" (some 4) false none none none none none none none none false

/-- Counterexample to C7 as stated: after re-assigning the task to "t2" the
stale `batch_size` entry stays in the axis mapping although it is no longer
registered as mandatory, so the invariant is not preserved by task
re-assignment. -/
theorem C7_axes_invariant_counterexample :
    ¬ AxesInv (c7Base.set_task "t2") := by
  decide
